import Mathlib

/-!
Shallow embedding of `update-adguard-dns.py`.

The script has two parts: an IP resolver (`is_running_in_docker`,
`get_docker_host_ip`, `get_ip_linux`, `get_ip_macos`, `get_ethernet_ip`)
and a rewrite reconciler (`validate_hostname`, `parse_hostnames`,
`process_hostname`, `update_dns_rewrite`).  Python strings are modelled
as lists of characters; every OS or network effect is modelled through
an explicit environment record, and the remote calls a run performs are
collected in an event trace.
-/

/-- Python strings are modelled as lists of characters. -/
abbrev PyStr := List Char

/-- The characters of a Lean string literal, used to write concrete inputs. -/
def str (s : String) : PyStr := s.data

/-- The ASCII whitespace characters recognised by Python's `strip()` and
`split()` (the script only ever meets ASCII text). -/
def isPyWs (c : Char) : Bool :=
  c = ' ' || c = '\t' || c = '\n' || c = '\r' || c = '\x0b' || c = '\x0c'

/-- Split at every character satisfying `p`, keeping empty pieces: Python's
`s.split(sep)` behaviour for a one-character separator. -/
def pySplitIf (p : Char → Bool) : PyStr → List PyStr
  | [] => [[]]
  | c :: cs =>
    if p c then [] :: pySplitIf p cs
    else
      match pySplitIf p cs with
      | [] => [[c]]
      | h :: t => (c :: h) :: t

/-- Python `s.split(sep)` for a single-character separator. -/
def pySplitChar (sep : Char) (s : PyStr) : List PyStr :=
  pySplitIf (fun c => c = sep) s

/-- Python `s.split()`: split on whitespace, dropping empty pieces. -/
def pySplitWs (s : PyStr) : List PyStr :=
  (pySplitIf isPyWs s).filter (fun x => !x.isEmpty)

/-- Python `s.strip()`. -/
def pyStrip (s : PyStr) : PyStr :=
  ((s.dropWhile isPyWs).reverse.dropWhile isPyWs).reverse

/-- Python `pat in s` (substring containment). -/
def pyContains (pat : PyStr) : PyStr → Bool
  | [] => pat.isEmpty
  | c :: cs => pat.isPrefixOf (c :: cs) || pyContains pat cs

/-- Python `s.replace(c, '')` for a one-character pattern. -/
def pyRemoveChar (c : Char) (s : PyStr) : PyStr :=
  s.filter (fun x => x != c)

/-- Python `s.isalnum()`, restricted to ASCII alphanumerics (the script's
hostnames are ASCII; Python's full Unicode categories are outside the
model).  Python returns `False` on the empty string. -/
def pyIsAlnumStr (s : PyStr) : Bool :=
  !s.isEmpty && s.all Char.isAlphanum

/-- Truthiness of an optional Python string: `None` and `""` are falsy. -/
def truthy : Option PyStr → Bool
  | none => false
  | some s => !s.isEmpty

/-- The body of the per-label loop in `validate_hostname`: a label must be
nonempty, at most 63 characters, and alphanumeric once hyphens (and,
vacuously, dots) are removed. -/
def labelOk (part : PyStr) : Bool :=
  if part.isEmpty || part.length > 63 then false
  else pyIsAlnumStr (pyRemoveChar '.' (pyRemoveChar '-' part))

/-- `validate_hostname`: rejects the empty string and strings longer than
253 characters, then checks every dot-separated label. -/
def validate_hostname (hostname : PyStr) : Bool :=
  if hostname.isEmpty || hostname.length > 253 then false
  else if (pySplitChar '.' hostname).length < 1 then false
  else (pySplitChar '.' hostname).all labelOk

/-- `parse_hostnames`: a truthy `HOSTNAMES` is comma-split, each entry
stripped and empty entries dropped; otherwise a truthy legacy `HOSTNAME`
is stripped and used alone when nonempty; otherwise no hostnames. -/
def parse_hostnames (HOSTNAMES HOSTNAME : Option PyStr) : List PyStr :=
  if truthy HOSTNAMES then
    ((pySplitChar ',' (HOSTNAMES.getD [])).filter
        (fun h => !(pyStrip h).isEmpty)).map pyStrip
  else if truthy HOSTNAME then
    if !(pyStrip (HOSTNAME.getD [])).isEmpty then
      [pyStrip (HOSTNAME.getD [])]
    else []
  else []

example : str "ab" = ['a', 'b'] := rfl

example : validate_hostname (str "my-host.local") = true := by decide

example : validate_hostname (str "a..b") = false := by decide

example : parse_hostnames (some (str "a.local, ,b.local")) (some (str "z")) =
    [str "a.local", str "b.local"] := by decide

/-! ## Docker detection -/

/-- An open file handle on an already-read-in content: Python's `f.read()`
returns everything after the current position and leaves the handle at
end-of-file, so a second `read` returns the empty string. -/
structure FileHandle where
  remaining : PyStr
deriving DecidableEq, Repr

/-- Python `f.read()`: the unread rest, and the exhausted handle. -/
def readAll (h : FileHandle) : PyStr × FileHandle :=
  (h.remaining, ⟨[]⟩)

/-- The part of the machine `is_running_in_docker` inspects: whether the
marker file `/.dockerenv` exists, and the content of `/proc/1/cgroup`
(`none` when opening or reading it raises). -/
structure DockerEnv where
  dockerenv_exists : Bool
  cgroup : Option PyStr
deriving DecidableEq, Repr

/-- `is_running_in_docker`: the marker file wins; otherwise `/proc/1/cgroup`
is opened and `f.read()` is called twice — once inside each substring
test — so the second test runs on the empty string left by the first. -/
def is_running_in_docker (env : DockerEnv) : Bool :=
  if env.dockerenv_exists then true
  else
    match env.cgroup with
    | none => false
    | some content =>
      let r1 := readAll ⟨content⟩
      let r2 := readAll r1.2
      pyContains (str "docker") r1.1 || pyContains (str "containerd") r2.1

/-! ## IP resolution strategies -/

/-- The rejection applied to candidate addresses by the Linux and macOS
strategies: loopback (`127.`) and link-local (`169.254.`) prefixes. -/
def ipFilterOk (ip : PyStr) : Bool :=
  !((str "127.").isPrefixOf ip) && !((str "169.254.").isPrefixOf ip)

/-- What `get_ip_linux` observes: the stdout of `ip route get 8.8.8.8` and
of `ip addr show` (`none` models a raised `CalledProcessError` or
`FileNotFoundError`). -/
structure LinuxEnv where
  route_get : Option PyStr
  addr_show : Option PyStr
deriving DecidableEq, Repr

/-- Outcome of examining one line of `ip route get` output: an address was
returned, a `ValueError` escaped (`'src' in line` held but `'src'` is not
a whitespace-separated token, so `parts.index('src')` raised), or the loop
moves on. -/
inductive ScanR where
  | found (ip : PyStr)
  | error
  | next
deriving DecidableEq, Repr

/-- One iteration of the `ip route get` parsing loop. -/
def routeLineStep (line : PyStr) : ScanR :=
  if pyContains (str "src") line then
    let parts := pySplitWs line
    match parts.findIdx? (fun t => t == str "src") with
    | none => ScanR.error
    | some i =>
      if i + 1 < parts.length then
        let ip := parts.getD (i + 1) []
        if ipFilterOk ip then ScanR.found ip else ScanR.next
      else ScanR.next
  else ScanR.next

/-- The `ip route get` parsing loop over all output lines. -/
def scanRouteLines : List PyStr → ScanR
  | [] => ScanR.next
  | l :: ls =>
    match routeLineStep l with
    | ScanR.found ip => ScanR.found ip
    | ScanR.error => ScanR.error
    | ScanR.next => scanRouteLines ls

/-- One iteration of the `ip addr show` fallback loop: a stripped line
starting with `inet ` and mentioning `scope global` proposes its second
token (CIDR suffix removed) if it passes the address filter. -/
def addrLineStep (l : PyStr) : Option PyStr :=
  let line := pyStrip l
  if (str "inet ").isPrefixOf line && pyContains (str "scope global") line then
    let parts := pySplitWs line
    if 2 ≤ parts.length then
      let ip := (pySplitChar '/' (parts.getD 1 [])).getD 0 []
      if ipFilterOk ip then some ip else none
    else none
  else none

/-- The `ip addr show` fallback loop over all output lines. -/
def scanAddrLines : List PyStr → Option PyStr
  | [] => none
  | l :: ls =>
    match addrLineStep l with
    | some ip => some ip
    | none => scanAddrLines ls

/-- `get_ip_linux`: parse `ip route get 8.8.8.8` for a `src` address, then
fall back to `ip addr show`; a subprocess failure or an escaped
`ValueError` yields `None`. -/
def get_ip_linux (env : LinuxEnv) : Option PyStr :=
  match env.route_get with
  | none => none
  | some out =>
    match scanRouteLines (pySplitChar '\n' out) with
    | ScanR.found ip => some ip
    | ScanR.error => none
    | ScanR.next =>
      match env.addr_show with
      | none => none
      | some out2 => scanAddrLines (pySplitChar '\n' out2)

/-- What `get_ip_macos` observes: the stdout of `ifconfig` (`none` models a
raised subprocess error). -/
structure MacosEnv where
  ifconfig : Option PyStr
deriving DecidableEq, Repr

/-- Truthiness-and-prefix test on `current_interface` from the script:
`current_interface and current_interface.startswith('en')`. -/
def interfaceOk : Option PyStr → Bool
  | none => false
  | some ci => !ci.isEmpty && (str "en").isPrefixOf ci

/-- The `ifconfig` parsing loop: lines starting with `en` open a new
interface block; an `inet ` line inside an `en*` block proposes its second
token if it passes the address filter. -/
def macosScan : Option PyStr → List PyStr → Option PyStr
  | _, [] => none
  | cur, l :: ls =>
    let line := pyStrip l
    if (str "en").isPrefixOf line then
      macosScan (some ((pySplitChar ':' line).getD 0 [])) ls
    else if (str "inet ").isPrefixOf line && interfaceOk cur then
      let parts := pySplitWs line
      if 2 ≤ parts.length then
        let ip := parts.getD 1 []
        if ipFilterOk ip then some ip else macosScan cur ls
      else macosScan cur ls
    else macosScan cur ls

/-- `get_ip_macos`: scan `ifconfig` output with no interface block open. -/
def get_ip_macos (env : MacosEnv) : Option PyStr :=
  match env.ifconfig with
  | none => none
  | some out => macosScan none (pySplitChar '\n' out)

/-! ## The resolver entry point, with a trace of what it attempted -/

/-- Everything the resolver and reconciler observe or call, as trace
events: the three probes of `get_ethernet_ip`, the three remote-store
calls, and the entry into `process_hostname` for one hostname. -/
inductive Ev where
  | probeDockerHost
  | probeLinux
  | probeMacos
  | listCall
  | deleteCall (domain : PyStr)
  | addCall (domain : PyStr) (answer : PyStr)
  | processCall (hostname : PyStr)
deriving DecidableEq, Repr

/-- Remote mutations: delete and add calls. -/
def Ev.isMutation : Ev → Bool
  | Ev.deleteCall _ => true
  | Ev.addCall _ _ => true
  | _ => false

/-- Entry into the per-hostname processing of one hostname. -/
def Ev.isProcess : Ev → Bool
  | Ev.processCall _ => true
  | _ => false

/-- The environment `get_ethernet_ip` works in. -/
structure ResolverEnv where
  docker : DockerEnv
  docker_host_ip : Option PyStr
  linux : LinuxEnv
  macos : MacosEnv

/-- `get_docker_host_ip`: `socket.gethostbyname('host.docker.internal')`,
returning `None` when the lookup raises.  No address filtering. -/
def get_docker_host_ip (env : ResolverEnv) : Option PyStr :=
  env.docker_host_ip

/-- Python's `a or b` on optional strings: `b` when `a` is falsy. -/
def orElseFalsy (a b : Option PyStr) : Option PyStr :=
  match a with
  | none => b
  | some s => if !s.isEmpty then some s else b

/-- `get_ethernet_ip`: inside Docker, return the host-gateway lookup
directly (no fallback); otherwise `get_ip_linux() or get_ip_macos()`,
returning `None` when the combined result is falsy.  The second component
records which probes ran. -/
def get_ethernet_ip (env : ResolverEnv) : Option PyStr × List Ev :=
  if is_running_in_docker env.docker then
    (get_docker_host_ip env, [Ev.probeDockerHost])
  else if truthy (get_ip_linux env.linux) then
    (get_ip_linux env.linux, [Ev.probeLinux])
  else
    (if truthy (orElseFalsy (get_ip_linux env.linux) (get_ip_macos env.macos))
     then orElseFalsy (get_ip_linux env.linux) (get_ip_macos env.macos)
     else none,
     [Ev.probeLinux, Ev.probeMacos])

example :
    get_ethernet_ip ⟨⟨true, none⟩, some (str "192.168.65.2"), ⟨none, none⟩, ⟨none⟩⟩ =
      (some (str "192.168.65.2"), [Ev.probeDockerHost]) := by decide

example :
    (get_ethernet_ip ⟨⟨false, none⟩, none,
        ⟨some (str "8.8.8.8 via 10.0.0.1 dev eth0 src 10.0.0.7"), none⟩, ⟨none⟩⟩).1 =
      some (str "10.0.0.7") := by decide

/-! ## The rewrite reconciler -/

/-- One rewrite rule as returned by the remote store; the fields mirror
`rewrite.get('domain')` and `rewrite.get('answer')`, which are `None`
when the key is absent. -/
structure Rewrite where
  domain : Option PyStr
  answer : Option PyStr
deriving DecidableEq, Repr

/-- The remote store as the script observes it: the snapshot returned by
the list endpoint (`none` models a `RequestException`), and the outcome
of a delete or add call for given arguments. -/
structure StoreEnv where
  list_result : Option (List Rewrite)
  delete_ok : PyStr → Bool
  add_ok : PyStr → PyStr → Bool

/-- `delete_existing_rewrite`: one POST to the delete endpoint. -/
def delete_existing_rewrite (env : StoreEnv) (domain : PyStr) : Bool × List Ev :=
  (env.delete_ok domain, [Ev.deleteCall domain])

/-- `add_dns_rewrite`: one POST to the add endpoint. -/
def add_dns_rewrite (env : StoreEnv) (domain ip : PyStr) : Bool × List Ev :=
  (env.add_ok domain ip, [Ev.addCall domain ip])

/-- `process_hostname`: validate, then scan the snapshot for the first rule
whose `domain` equals the hostname (the script's `for`/`break` loop).  A
match with the same answer is already satisfied; a match with a different
answer is deleted first, and a failed delete stops the hostname; then (as
after `break`, or when nothing matched) one add call decides the result. -/
def process_hostname (hostname local_ip : PyStr) (existing : List Rewrite)
    (env : StoreEnv) : Bool × List Ev :=
  if !validate_hostname hostname then (false, [])
  else
    match existing.find? (fun r => r.domain == some hostname) with
    | some r =>
      if r.answer == some local_ip then (true, [])
      else
        let d := delete_existing_rewrite env hostname
        if d.1 then
          let a := add_dns_rewrite env hostname local_ip
          (a.1, d.2 ++ a.2)
        else (false, d.2)
    | none =>
      let a := add_dns_rewrite env hostname local_ip
      (a.1, a.2)

/-- The per-hostname loop of `update_dns_rewrite`: the number of successes
and the concatenated trace, each hostname's processing marked by a
`processCall` event. -/
def processAll (local_ip : PyStr) (existing : List Rewrite) (env : StoreEnv) :
    List PyStr → Nat × List Ev
  | [] => (0, [])
  | h :: t =>
    let r := process_hostname h local_ip existing env
    let rest := processAll local_ip existing env t
    ((if r.1 then 1 else 0) + rest.1, (Ev.processCall h :: r.2) ++ rest.2)

/-- The configuration surface `update_dns_rewrite` reads
(environment variables; `none` models an unset variable). -/
structure Config where
  ADGUARD_USERNAME : Option PyStr
  ADGUARD_PASSWORD : Option PyStr
  HOSTNAMES : Option PyStr
  HOSTNAME : Option PyStr

/-- `update_dns_rewrite`: abort on missing credentials, then on an empty
hostname list, then on a falsy resolved IP, then on a failed snapshot
fetch; otherwise process every hostname and succeed when all — or at
least one — of them succeeded. -/
def update_dns_rewrite (cfg : Config) (renv : ResolverEnv) (senv : StoreEnv) :
    Bool × List Ev :=
  if !truthy cfg.ADGUARD_USERNAME || !truthy cfg.ADGUARD_PASSWORD then (false, [])
  else if (parse_hostnames cfg.HOSTNAMES cfg.HOSTNAME).isEmpty then (false, [])
  else if !truthy (get_ethernet_ip renv).1 then (false, (get_ethernet_ip renv).2)
  else
    match senv.list_result with
    | none => (false, (get_ethernet_ip renv).2 ++ [Ev.listCall])
    | some existing =>
      (if (processAll ((get_ethernet_ip renv).1.getD []) existing senv
              (parse_hostnames cfg.HOSTNAMES cfg.HOSTNAME)).1 =
            (parse_hostnames cfg.HOSTNAMES cfg.HOSTNAME).length then true
       else if 0 < (processAll ((get_ethernet_ip renv).1.getD []) existing senv
              (parse_hostnames cfg.HOSTNAMES cfg.HOSTNAME)).1 then true
       else false,
       (get_ethernet_ip renv).2 ++ Ev.listCall ::
         (processAll ((get_ethernet_ip renv).1.getD []) existing senv
            (parse_hostnames cfg.HOSTNAMES cfg.HOSTNAME)).2)

example :
    update_dns_rewrite
      ⟨some (str "u"), some (str "p"), some (str "a.local"), none⟩
      ⟨⟨true, none⟩, some (str "10.0.0.5"), ⟨none, none⟩, ⟨none⟩⟩
      ⟨some [], fun _ => true, fun _ _ => true⟩ =
    (true, [Ev.probeDockerHost, Ev.listCall, Ev.processCall (str "a.local"),
            Ev.addCall (str "a.local") (str "10.0.0.5")]) := by decide

/-! ## Lemmas about splitting -/

theorem pySplitIf_ne_nil (p : Char → Bool) (s : PyStr) : pySplitIf p s ≠ [] := by
  induction s with
  | nil => simp [pySplitIf]
  | cons c cs ih =>
    simp only [pySplitIf]
    split
    · simp
    · split
      · simp
      · simp

/-- Splitting distributes over an occurrence of the separator. -/
theorem pySplitIf_append_sep (p : Char → Bool) (c : Char) (hc : p c = true)
    (s t : PyStr) :
    pySplitIf p (s ++ c :: t) = pySplitIf p s ++ pySplitIf p t := by
  induction s with
  | nil => simp [pySplitIf, hc]
  | cons a as ih =>
    cases ha : p a with
    | true =>
      simp only [List.cons_append, pySplitIf, ha, if_true, List.append_eq, ih,
        List.cons_append]
    | false =>
      simp only [List.cons_append, pySplitIf, ha, Bool.false_eq_true, if_false,
        List.append_eq]
      rw [ih]
      cases h : pySplitIf p as with
      | nil => exact absurd h (pySplitIf_ne_nil p as)
      | cons h0 t0 => simp

/-- A character the splitter does not consume ends up inside some part. -/
theorem exists_part_of_mem (p : Char → Bool) (c : Char) (s : PyStr)
    (hmem : c ∈ s) (hc : p c = false) :
    ∃ part ∈ pySplitIf p s, c ∈ part := by
  induction s with
  | nil => cases hmem
  | cons a as ih =>
    rcases List.mem_cons.mp hmem with rfl | hmem'
    · cases h : pySplitIf p as with
      | nil => exact absurd h (pySplitIf_ne_nil p as)
      | cons h0 t0 =>
        refine ⟨c :: h0, ?_, List.mem_cons_self _ _⟩
        simp [pySplitIf, hc, h]
    · obtain ⟨part, hp, hcp⟩ := ih hmem'
      cases ha : p a with
      | true =>
        refine ⟨part, ?_, hcp⟩
        simp only [pySplitIf, ha, if_true]
        exact List.mem_cons_of_mem _ hp
      | false =>
        cases h : pySplitIf p as with
        | nil => exact absurd h (pySplitIf_ne_nil p as)
        | cons h0 t0 =>
          rw [h] at hp
          rcases List.mem_cons.mp hp with rfl | hp'
          · refine ⟨a :: part, ?_, List.mem_cons_of_mem _ hcp⟩
            simp [pySplitIf, ha, h]
          · refine ⟨part, ?_, hcp⟩
            simp only [pySplitIf, ha, Bool.false_eq_true, if_false, h]
            exact List.mem_cons_of_mem _ hp'

/-! ## Lemmas about `validate_hostname` -/

theorem pySplitChar_ne_nil (sep : Char) (s : PyStr) : pySplitChar sep s ≠ [] :=
  pySplitIf_ne_nil _ s

/-- The `len(parts) < 1` guard never fires: splitting always yields at
least one part. -/
theorem validate_hostname_eq (hostname : PyStr) :
    validate_hostname hostname =
      (if hostname.isEmpty || hostname.length > 253 then false
       else (pySplitChar '.' hostname).all labelOk) := by
  unfold validate_hostname
  split
  · rfl
  · exact if_neg (fun h => pySplitChar_ne_nil '.' hostname
      (List.length_eq_zero.mp (Nat.lt_one_iff.mp h)))

/-- If some dot-separated part fails the label check, validation fails. -/
theorem validate_hostname_false_of_bad_part (hostname part : PyStr)
    (hp : part ∈ pySplitChar '.' hostname)
    (hbad : labelOk part = false) :
    validate_hostname hostname = false := by
  rw [validate_hostname_eq]
  split
  · rfl
  · exact List.all_eq_false.mpr ⟨part, hp, by rw [hbad]; simp⟩

/-- An empty dot-separated part makes validation fail. -/
theorem validate_hostname_false_of_empty_part (hostname : PyStr)
    (hp : [] ∈ pySplitChar '.' hostname) :
    validate_hostname hostname = false :=
  validate_hostname_false_of_bad_part hostname [] hp (by decide)

/-! ## C7 and C10: what `validate_hostname` rejects -/

/-- C7: `validate_hostname` returns `False` for the empty string, for any
hostname longer than 253 characters, for any hostname with a
dot-separated label longer than 63 characters, and for any hostname
containing a character outside alphanumerics, hyphen and dot (stated for
ASCII characters, the embedding's range of Python's `isalnum`). -/
theorem C7_validate_rejections :
    validate_hostname [] = false
    ∧ (∀ h : PyStr, 253 < h.length → validate_hostname h = false)
    ∧ (∀ (h part : PyStr), part ∈ pySplitChar '.' h → 63 < part.length →
        validate_hostname h = false)
    ∧ (∀ (h : PyStr) (c : Char), c ∈ h → c.toNat < 128 →
        c.isAlphanum = false → c ≠ '-' → c ≠ '.' →
        validate_hostname h = false) := by
  refine ⟨by decide, ?_, ?_, ?_⟩
  · intro h hlen
    rw [validate_hostname_eq]
    have : (h.isEmpty || decide (h.length > 253)) = true := by
      simp [hlen]
    rw [this]
    rfl
  · intro h part hp hlen
    refine validate_hostname_false_of_bad_part h part hp ?_
    unfold labelOk
    have : (part.isEmpty || decide (part.length > 63)) = true := by
      simp [hlen]
    rw [this]
    rfl
  · intro h c hc _ hal hhy hdot
    obtain ⟨part, hp, hcp⟩ :=
      exists_part_of_mem (fun x => x = '.') c h hc (by simp [hdot])
    refine validate_hostname_false_of_bad_part h part hp ?_
    unfold labelOk
    split
    · rfl
    · have hmem : c ∈ pyRemoveChar '.' (pyRemoveChar '-' part) := by
        unfold pyRemoveChar
        refine List.mem_filter.mpr ⟨List.mem_filter.mpr ⟨hcp, ?_⟩, ?_⟩
        · simp [hhy]
        · simp [hdot]
      have hall : (pyRemoveChar '.' (pyRemoveChar '-' part)).all Char.isAlphanum
          = false :=
        List.all_eq_false.mpr ⟨c, hmem, by rw [hal]; simp⟩
      simp [pyIsAlnumStr, hall]

set_option maxRecDepth 8192 in
/-- Witness for C7: a 254-character name, a 64-character label, and an
underscore are each rejected. -/
theorem C7_validate_rejections_witness :
    validate_hostname (List.replicate 254 'a') = false
    ∧ validate_hostname (List.replicate 64 'a' ++ str ".b") = false
    ∧ validate_hostname (str "host_bad.local") = false :=
  ⟨C7_validate_rejections.2.1 _ (by decide),
   C7_validate_rejections.2.2.1 _ (List.replicate 64 'a') (by decide) (by decide),
   C7_validate_rejections.2.2.2 _ '_' (by decide) (by decide) (by decide)
     (by decide) (by decide)⟩

/-- C10: a hostname with an empty label — a leading dot, a trailing dot, or
two consecutive dots — is rejected even when every character is in the
allowed set. -/
theorem C10_empty_label_rejected :
    (∀ s : PyStr, validate_hostname ('.' :: s) = false)
    ∧ (∀ s : PyStr, validate_hostname (s ++ ['.']) = false)
    ∧ (∀ s t : PyStr, validate_hostname (s ++ '.' :: '.' :: t) = false) := by
  refine ⟨?_, ?_, ?_⟩
  · intro s
    refine validate_hostname_false_of_empty_part _ ?_
    have : pySplitChar '.' ('.' :: s) = [] :: pySplitChar '.' s := by
      simp [pySplitChar, pySplitIf]
    rw [this]
    exact List.mem_cons_self _ _
  · intro s
    refine validate_hostname_false_of_empty_part _ ?_
    have : pySplitChar '.' (s ++ ['.']) = pySplitChar '.' s ++ [[]] := by
      unfold pySplitChar
      rw [pySplitIf_append_sep _ '.' (by simp) s []]
      rfl
    rw [this]
    exact List.mem_append_right _ (List.mem_singleton.mpr rfl)
  · intro s t
    refine validate_hostname_false_of_empty_part _ ?_
    have : pySplitChar '.' (s ++ '.' :: '.' :: t) =
        pySplitChar '.' s ++ [] :: pySplitChar '.' t := by
      unfold pySplitChar
      rw [pySplitIf_append_sep _ '.' (by simp) s ('.' :: t)]
      simp [pySplitIf]
    rw [this]
    exact List.mem_append_right _ (List.mem_cons_self _ _)

/-- Witness for C10 at the spec's own examples. -/
theorem C10_empty_label_rejected_witness :
    validate_hostname (str "a.local.") = false
    ∧ validate_hostname (str "a..b") = false := by
  constructor
  · have h := C10_empty_label_rejected.2.1 (str "a.local")
    rw [show str "a.local." = str "a.local" ++ ['.'] from by decide] at *
    exact h
  · have h := C10_empty_label_rejected.2.2 (str "a") (str "b")
    rw [show str "a..b" = str "a" ++ '.' :: '.' :: str "b" from by decide] at *
    exact h

/-! ## C8: `parse_hostnames` with a truthy `HOSTNAMES` -/

theorem filter_map_strip (l : List PyStr) :
    (l.filter (fun h => !(pyStrip h).isEmpty)).map pyStrip =
      (l.map pyStrip).filter (fun e => !e.isEmpty) := by
  induction l with
  | nil => rfl
  | cons a as ih =>
    cases ha : (pyStrip a).isEmpty with
    | true => simp [List.filter_cons, ha, ih]
    | false => simp [List.filter_cons, ha, ih]

/-- C8: when `HOSTNAMES` is set and non-empty, the result is the
comma-split entries, stripped, with empty entries dropped, and the legacy
`HOSTNAME` value has no influence; the spec's example parses as stated. -/
theorem C8_hostnames_parsing (hs : PyStr) (hne : hs ≠ []) (h1 h2 : Option PyStr) :
    parse_hostnames (some hs) h1 =
      ((pySplitChar ',' hs).map pyStrip).filter (fun e => !e.isEmpty)
    ∧ parse_hostnames (some hs) h1 = parse_hostnames (some hs) h2
    ∧ parse_hostnames (some (str "a.local, ,b.local")) h1 =
        [str "a.local", str "b.local"] := by
  have ht : truthy (some hs) = true := by
    simp [truthy, hne]
  refine ⟨?_, ?_, rfl⟩
  · have e1 : parse_hostnames (some hs) h1 =
        ((pySplitChar ',' hs).filter (fun h => !(pyStrip h).isEmpty)).map pyStrip := by
      simp [parse_hostnames, ht]
    rw [e1]
    exact filter_map_strip _
  · simp [parse_hostnames, ht]

/-! ## C1: address filtering -/

theorem routeLineStep_found (line ip : PyStr)
    (h : routeLineStep line = ScanR.found ip) : ipFilterOk ip = true := by
  simp only [routeLineStep] at h
  split at h
  · split at h
    · cases h
    · split at h
      · split at h
        · cases h; assumption
        · cases h
      · cases h
  · cases h

theorem scanRouteLines_found (ls : List PyStr) (ip : PyStr)
    (h : scanRouteLines ls = ScanR.found ip) : ipFilterOk ip = true := by
  induction ls with
  | nil => cases h
  | cons l ls ih =>
    simp only [scanRouteLines] at h
    cases hstep : routeLineStep l with
    | found ip' => simp only [hstep] at h; cases h; exact routeLineStep_found l ip hstep
    | error => simp only [hstep] at h; cases h
    | next => simp only [hstep] at h; exact ih h

theorem addrLineStep_some (l ip : PyStr) (h : addrLineStep l = some ip) :
    ipFilterOk ip = true := by
  simp only [addrLineStep] at h
  split at h
  · split at h
    · split at h
      · cases h; assumption
      · cases h
    · cases h
  · cases h

theorem scanAddrLines_some (ls : List PyStr) (ip : PyStr)
    (h : scanAddrLines ls = some ip) : ipFilterOk ip = true := by
  induction ls with
  | nil => cases h
  | cons l ls ih =>
    simp only [scanAddrLines] at h
    cases ha : addrLineStep l with
    | some ip' => simp only [ha] at h; cases h; exact addrLineStep_some l ip ha
    | none => simp only [ha] at h; exact ih h

/-- Every address `get_ip_linux` returns passed the loopback/link-local
filter. -/
theorem get_ip_linux_filter (env : LinuxEnv) (ip : PyStr)
    (h : get_ip_linux env = some ip) : ipFilterOk ip = true := by
  simp only [get_ip_linux] at h
  cases hr : env.route_get with
  | none => rw [hr] at h; cases h
  | some out =>
    simp only [hr] at h
    cases hs : scanRouteLines (pySplitChar '\n' out) with
    | found ip' => simp only [hs] at h; cases h; exact scanRouteLines_found _ _ hs
    | error => simp only [hs] at h; cases h
    | next =>
      simp only [hs] at h
      cases ha : env.addr_show with
      | none => rw [ha] at h; cases h
      | some out2 => simp only [ha] at h; exact scanAddrLines_some _ _ h

theorem macosScan_some (ls : List PyStr) : ∀ (cur : Option PyStr) (ip : PyStr),
    macosScan cur ls = some ip → ipFilterOk ip = true := by
  induction ls with
  | nil => intro cur ip h; cases h
  | cons l ls ih =>
    intro cur ip h
    simp only [macosScan] at h
    split at h
    · exact ih _ _ h
    · split at h
      · split at h
        · split at h
          · cases h; assumption
          · exact ih _ _ h
        · exact ih _ _ h
      · exact ih _ _ h

/-- Every address `get_ip_macos` returns passed the loopback/link-local
filter. -/
theorem get_ip_macos_filter (env : MacosEnv) (ip : PyStr)
    (h : get_ip_macos env = some ip) : ipFilterOk ip = true := by
  simp only [get_ip_macos] at h
  cases hi : env.ifconfig with
  | none => rw [hi] at h; cases h
  | some out => simp only [hi] at h; exact macosScan_some _ _ _ h

/-- C1 counterexample: inside a container, `get_ethernet_ip` returns the
host-gateway lookup unfiltered, so a `127.`-prefixed resolution is handed
back as the resolver's IP. -/
theorem C1_counterexample :
    (get_ethernet_ip ⟨⟨true, none⟩, some (str "127.0.0.1"),
        ⟨none, none⟩, ⟨none⟩⟩).1 = some (str "127.0.0.1")
    ∧ (str "127.").isPrefixOf (str "127.0.0.1") = true := by decide

/-- C1 amended: outside the containerized path, every IP string
`get_ethernet_ip` returns starts with neither `127.` nor `169.254.`; the
containerized path returns the host-gateway resolution without this
filter. -/
theorem C1_filter_outside_docker (renv : ResolverEnv) (ip : PyStr)
    (hnd : is_running_in_docker renv.docker = false)
    (hres : (get_ethernet_ip renv).1 = some ip) :
    (str "127.").isPrefixOf ip = false
    ∧ (str "169.254.").isPrefixOf ip = false := by
  have hfilter : ipFilterOk ip = true := by
    simp only [get_ethernet_ip, hnd, Bool.false_eq_true, if_false] at hres
    cases hl : truthy (get_ip_linux renv.linux) with
    | true =>
      simp only [hl, if_true] at hres
      exact get_ip_linux_filter _ _ hres
    | false =>
      simp only [hl, Bool.false_eq_true, if_false] at hres
      cases ht : truthy (orElseFalsy (get_ip_linux renv.linux)
          (get_ip_macos renv.macos)) with
      | false => simp only [ht, Bool.false_eq_true, if_false] at hres; cases hres
      | true =>
        simp only [ht, if_true] at hres
        have hm : orElseFalsy (get_ip_linux renv.linux) (get_ip_macos renv.macos)
            = get_ip_macos renv.macos := by
          cases hcase : get_ip_linux renv.linux with
          | none => simp [orElseFalsy]
          | some s =>
            have hemp : s.isEmpty = true := by
              rw [hcase] at hl
              simpa [truthy] using hl
            simp [orElseFalsy, hemp]
        rw [hm] at hres
        exact get_ip_macos_filter _ _ hres
  simp only [ipFilterOk, Bool.and_eq_true, Bool.not_eq_true'] at hfilter
  exact hfilter

/-- Witness for the amended C1 on a Linux routing-table answer. -/
theorem C1_filter_outside_docker_witness :
    (str "127.").isPrefixOf (str "10.0.0.7") = false
    ∧ (str "169.254.").isPrefixOf (str "10.0.0.7") = false :=
  C1_filter_outside_docker
    ⟨⟨false, none⟩, none, ⟨some (str "x src 10.0.0.7"), none⟩, ⟨none⟩⟩
    (str "10.0.0.7") (by decide) (by decide)

/-! ## C2: the containerd check in `is_running_in_docker` -/

/-- C2: with no marker file and a cgroup record that mentions `containerd`
but not `docker`, the function returns `False` — the second `f.read()`
runs on the handle the first one exhausted, so the `containerd` test
examines the empty string.  The claim (and the code's evident intent)
says `True`. -/
theorem C2_containerd_not_detected :
    is_running_in_docker
        ⟨false, some (str "0::/system.slice/containerd.service")⟩ = false
    ∧ pyContains (str "containerd")
        (str "0::/system.slice/containerd.service") = true
    ∧ pyContains (str "docker")
        (str "0::/system.slice/containerd.service") = false := by decide

/-- Witness for C8 at the spec's example, with a legacy `HOSTNAME` set. -/
theorem C8_hostnames_parsing_witness :
    parse_hostnames (some (str "a.local, ,b.local")) (some (str "legacy.host")) =
      [str "a.local", str "b.local"]
    ∧ parse_hostnames (some (str "a.local, ,b.local")) (some (str "legacy.host")) =
        parse_hostnames (some (str "a.local, ,b.local")) none :=
  ⟨(C8_hostnames_parsing (str "a.local, ,b.local") (by decide)
      (some (str "legacy.host")) none).2.2,
   (C8_hostnames_parsing (str "a.local, ,b.local") (by decide)
      (some (str "legacy.host")) none).2.1⟩

/-! ## C3: failed host-gateway resolution in a container -/

/-- C3: if the environment is detected as containerized and the
host-gateway lookup fails, the resolver fails having attempted only the
Docker probe (no routing-table or interface fallback), and the whole run
fails with a trace containing nothing but that probe — in particular no
per-hostname processing and no remote call. -/
theorem C3_docker_failure_no_fallback (cfg : Config) (renv : ResolverEnv)
    (senv : StoreEnv)
    (hdock : is_running_in_docker renv.docker = true)
    (hfail : renv.docker_host_ip = none) :
    get_ethernet_ip renv = (none, [Ev.probeDockerHost])
    ∧ (update_dns_rewrite cfg renv senv).1 = false
    ∧ (update_dns_rewrite cfg renv senv).2.all
        (fun e => e == Ev.probeDockerHost) = true := by
  have hres : get_ethernet_ip renv = (none, [Ev.probeDockerHost]) := by
    simp [get_ethernet_ip, hdock, get_docker_host_ip, hfail]
  have hupd : update_dns_rewrite cfg renv senv = (false, []) ∨
      update_dns_rewrite cfg renv senv = (false, [Ev.probeDockerHost]) := by
    unfold update_dns_rewrite
    cases hc : (!truthy cfg.ADGUARD_USERNAME || !truthy cfg.ADGUARD_PASSWORD) with
    | true => exact Or.inl rfl
    | false =>
      cases hh : (parse_hostnames cfg.HOSTNAMES cfg.HOSTNAME).isEmpty with
      | true => exact Or.inl rfl
      | false => rw [hres]; exact Or.inr rfl
  rcases hupd with h | h <;> rw [hres, h] <;> exact ⟨rfl, rfl, rfl⟩

/-- Witness for C3 with the container marker present, the lookup failing,
and a full working configuration. -/
theorem C3_docker_failure_no_fallback_witness :
    get_ethernet_ip ⟨⟨true, none⟩, none, ⟨none, none⟩, ⟨none⟩⟩ =
      (none, [Ev.probeDockerHost])
    ∧ (update_dns_rewrite ⟨some (str "u"), some (str "p"), some (str "a.local"), none⟩
        ⟨⟨true, none⟩, none, ⟨none, none⟩, ⟨none⟩⟩
        ⟨some [], fun _ => true, fun _ _ => true⟩).1 = false
    ∧ (update_dns_rewrite ⟨some (str "u"), some (str "p"), some (str "a.local"), none⟩
        ⟨⟨true, none⟩, none, ⟨none, none⟩, ⟨none⟩⟩
        ⟨some [], fun _ => true, fun _ _ => true⟩).2.all
        (fun e => e == Ev.probeDockerHost) = true :=
  C3_docker_failure_no_fallback _ _ _ (by decide) rfl

/-! ## C4: change detection deletes before creating -/

/-- C4: for a valid hostname whose first matching snapshot rule has an
answer different from the target IP, exactly one delete is issued, a
create is issued exactly when the delete succeeded (never without it),
and a failed delete makes the hostname fail with no create call. -/
theorem C4_delete_then_create (hostname tip : PyStr) (existing : List Rewrite)
    (env : StoreEnv)
    (hv : validate_hostname hostname = true)
    (hf : Option.any (fun r => !(r.answer == some tip))
        (existing.find? (fun r => r.domain == some hostname)) = true) :
    process_hostname hostname tip existing env =
      (env.delete_ok hostname && env.add_ok hostname tip,
       if env.delete_ok hostname
       then [Ev.deleteCall hostname, Ev.addCall hostname tip]
       else [Ev.deleteCall hostname]) := by
  unfold process_hostname
  cases hfind : existing.find? (fun r => r.domain == some hostname) with
  | none => rw [hfind] at hf; cases hf
  | some r =>
    rw [hfind] at hf
    have hans : (r.answer == some tip) = false := by
      have hf' : (!(r.answer == some tip)) = true := hf
      simpa using hf'
    cases hd : env.delete_ok hostname with
    | true =>
      simp [hv, hfind, hans, delete_existing_rewrite, add_dns_rewrite, hd]
    | false =>
      simp [hv, hfind, hans, delete_existing_rewrite, add_dns_rewrite, hd]

/-- Witness for C4: a failing delete yields a failed hostname with a
trace of exactly one delete call and no create. -/
theorem C4_delete_then_create_witness :
    process_hostname (str "a.local") (str "2.2.2.2")
        [⟨some (str "a.local"), some (str "1.1.1.1")⟩]
        ⟨some [], fun _ => false, fun _ _ => true⟩ =
      (false, [Ev.deleteCall (str "a.local")]) := by
  have h := C4_delete_then_create (str "a.local") (str "2.2.2.2")
      [⟨some (str "a.local"), some (str "1.1.1.1")⟩]
      ⟨some [], fun _ => false, fun _ _ => true⟩ (by decide) (by decide)
  simpa using h

/-! ## C5: already-satisfied hostnames cause no mutation -/

theorem processAll_all_satisfied (tip : PyStr) (existing : List Rewrite)
    (env : StoreEnv) (hostnames : List PyStr)
    (hall : ∀ h ∈ hostnames, process_hostname h tip existing env = (true, [])) :
    processAll tip existing env hostnames =
      (hostnames.length, hostnames.map Ev.processCall) := by
  revert hall
  induction hostnames with
  | nil => intro _; rfl
  | cons h t ih =>
    intro hall
    simp only [processAll, hall h (List.mem_cons_self _ _), List.map_cons]
    rw [ih (fun x hx => hall x (List.mem_cons_of_mem _ hx))]
    simp [Nat.add_comm]

/-- C5: when the snapshot's first rule for each hostname already carries
the target IP, every hostname succeeds with no delete and no create, and
the whole loop performs zero remote mutations — the idempotent second
run. -/
theorem C5_already_satisfied (tip : PyStr) (existing : List Rewrite)
    (env : StoreEnv) (hostnames : List PyStr)
    (hall : ∀ h ∈ hostnames, validate_hostname h = true ∧
      Option.any (fun r => r.answer == some tip)
        (existing.find? (fun r => r.domain == some h)) = true) :
    (∀ h ∈ hostnames, process_hostname h tip existing env = (true, []))
    ∧ processAll tip existing env hostnames =
        (hostnames.length, hostnames.map Ev.processCall) := by
  have single : ∀ h ∈ hostnames, process_hostname h tip existing env = (true, []) := by
    intro h hm
    obtain ⟨hv, hf⟩ := hall h hm
    unfold process_hostname
    cases hfind : existing.find? (fun r => r.domain == some h) with
    | none => rw [hfind] at hf; cases hf
    | some r =>
      rw [hfind] at hf
      have hf' : (r.answer == some tip) = true := hf
      simp [hv, hfind, hf']
  exact ⟨single, processAll_all_satisfied tip existing env hostnames single⟩

/-- Witness for C5: one hostname whose rule already points at the target
IP is processed with no remote call at all. -/
theorem C5_already_satisfied_witness :
    processAll (str "1.1.1.1")
        [⟨some (str "a.local"), some (str "1.1.1.1")⟩]
        ⟨some [], fun _ => true, fun _ _ => true⟩ [str "a.local"] =
      (1, [Ev.processCall (str "a.local")]) :=
  (C5_already_satisfied (str "1.1.1.1")
    [⟨some (str "a.local"), some (str "1.1.1.1")⟩]
    ⟨some [], fun _ => true, fun _ _ => true⟩ [str "a.local"]
    (by
      intro h hm
      rw [List.mem_singleton] at hm
      subst hm
      exact ⟨by decide, by decide⟩)).2

/-! ## C6: aggregate outcome of the per-hostname loop -/

/-- C6: once the run reaches the per-hostname loop, the overall result is
success exactly when at least one hostname succeeded; any positive
success count — partial or full — yields a truthy result, and zero
successes is the only failing outcome. -/
theorem C6_aggregate_success_iff (cfg : Config) (renv : ResolverEnv)
    (senv : StoreEnv) (ip : PyStr) (existing : List Rewrite)
    (hu : truthy cfg.ADGUARD_USERNAME = true)
    (hp : truthy cfg.ADGUARD_PASSWORD = true)
    (hn : parse_hostnames cfg.HOSTNAMES cfg.HOSTNAME ≠ [])
    (hip : (get_ethernet_ip renv).1 = some ip)
    (hipne : ip ≠ [])
    (hl : senv.list_result = some existing) :
    ((update_dns_rewrite cfg renv senv).1 = true ↔
      0 < (processAll ip existing senv
        (parse_hostnames cfg.HOSTNAMES cfg.HOSTNAME)).1) := by
  have he : (parse_hostnames cfg.HOSTNAMES cfg.HOSTNAME).isEmpty = false :=
    List.isEmpty_eq_false.mpr hn
  have htr : truthy (some ip) = true := by
    simpa [truthy] using hipne
  unfold update_dns_rewrite
  simp only [hu, hp, Bool.not_true, Bool.or_self, Bool.false_eq_true, if_false,
    he, hip, htr, Option.getD_some, hl]
  split
  next heq =>
    have hpos : 0 < (processAll ip existing senv
        (parse_hostnames cfg.HOSTNAMES cfg.HOSTNAME)).1 := by
      rw [heq]
      exact List.length_pos.mpr hn
    simp [hpos]
  next hne' =>
    split
    next hpos => simp [hpos]
    next hneg => simp [hneg]

/-- Witness for C6 with one hostname that succeeds by a create call. -/
theorem C6_aggregate_success_iff_witness :
    (update_dns_rewrite ⟨some (str "u"), some (str "p"), some (str "a.local"), none⟩
        ⟨⟨true, none⟩, some (str "10.0.0.5"), ⟨none, none⟩, ⟨none⟩⟩
        ⟨some [], fun _ => true, fun _ _ => true⟩).1 = true :=
  (C6_aggregate_success_iff
      ⟨some (str "u"), some (str "p"), some (str "a.local"), none⟩
      ⟨⟨true, none⟩, some (str "10.0.0.5"), ⟨none, none⟩, ⟨none⟩⟩
      ⟨some [], fun _ => true, fun _ _ => true⟩
      (str "10.0.0.5") []
      rfl rfl (by decide) rfl (by decide) rfl).mpr (by decide)

/-! ## C9: fatal errors abort before per-hostname work -/

/-- Whatever the environment, the resolver's trace is one of the three
probe sequences. -/
theorem get_ethernet_ip_trace (renv : ResolverEnv) :
    (get_ethernet_ip renv).2 = [Ev.probeDockerHost]
    ∨ (get_ethernet_ip renv).2 = [Ev.probeLinux]
    ∨ (get_ethernet_ip renv).2 = [Ev.probeLinux, Ev.probeMacos] := by
  unfold get_ethernet_ip
  cases hd : is_running_in_docker renv.docker with
  | true => exact Or.inl rfl
  | false =>
    cases hl : truthy (get_ip_linux renv.linux) with
    | true => exact Or.inr (Or.inl rfl)
    | false => exact Or.inr (Or.inr rfl)

/-- C9: missing credentials or an empty hostname list abort the run with
no event at all (no resolution, no remote work); a failed snapshot fetch
aborts the run before any per-hostname processing and any delete or
create call. -/
theorem C9_fatal_aborts (cfg : Config) (renv : ResolverEnv) (senv : StoreEnv) :
    ((truthy cfg.ADGUARD_USERNAME = false ∨ truthy cfg.ADGUARD_PASSWORD = false) →
      update_dns_rewrite cfg renv senv = (false, []))
    ∧ (parse_hostnames cfg.HOSTNAMES cfg.HOSTNAME = [] →
      update_dns_rewrite cfg renv senv = (false, []))
    ∧ (senv.list_result = none →
      (update_dns_rewrite cfg renv senv).1 = false
      ∧ (update_dns_rewrite cfg renv senv).2.all
          (fun e => !(e.isMutation || e.isProcess)) = true) := by
  refine ⟨?_, ?_, ?_⟩
  · intro hcred
    unfold update_dns_rewrite
    have hc : (!truthy cfg.ADGUARD_USERNAME || !truthy cfg.ADGUARD_PASSWORD) = true := by
      rcases hcred with h | h <;> simp [h]
    rw [hc]
    rfl
  · intro hemp
    unfold update_dns_rewrite
    cases hc : (!truthy cfg.ADGUARD_USERNAME || !truthy cfg.ADGUARD_PASSWORD) with
    | true => rfl
    | false => simp [hemp]
  · intro hnone
    have htrace := get_ethernet_ip_trace renv
    unfold update_dns_rewrite
    cases hc : (!truthy cfg.ADGUARD_USERNAME || !truthy cfg.ADGUARD_PASSWORD) with
    | true => exact ⟨rfl, rfl⟩
    | false =>
      cases hh : (parse_hostnames cfg.HOSTNAMES cfg.HOSTNAME).isEmpty with
      | true => exact ⟨rfl, rfl⟩
      | false =>
        rw [hnone]
        cases htr : truthy (get_ethernet_ip renv).1 with
        | false =>
          refine ⟨rfl, ?_⟩
          rcases htrace with h | h | h <;> rw [h] <;> rfl
        | true =>
          refine ⟨rfl, ?_⟩
          rcases htrace with h | h | h <;> rw [h] <;> rfl

/-- Witness for C9: unset credentials, no hostname configuration, and a
failing list endpoint all at once. -/
theorem C9_fatal_aborts_witness :
    update_dns_rewrite ⟨none, none, none, none⟩
        ⟨⟨false, none⟩, none, ⟨none, none⟩, ⟨none⟩⟩
        ⟨none, fun _ => true, fun _ _ => true⟩ = (false, [])
    ∧ (update_dns_rewrite ⟨none, none, none, none⟩
        ⟨⟨false, none⟩, none, ⟨none, none⟩, ⟨none⟩⟩
        ⟨none, fun _ => true, fun _ _ => true⟩).2.all
        (fun e => !(e.isMutation || e.isProcess)) = true :=
  ⟨(C9_fatal_aborts ⟨none, none, none, none⟩
      ⟨⟨false, none⟩, none, ⟨none, none⟩, ⟨none⟩⟩
      ⟨none, fun _ => true, fun _ _ => true⟩).1 (Or.inl rfl),
   ((C9_fatal_aborts ⟨none, none, none, none⟩
      ⟨⟨false, none⟩, none, ⟨none, none⟩, ⟨none⟩⟩
      ⟨none, fun _ => true, fun _ _ => true⟩).2.2 rfl).2⟩
